import Mathlib

/-!
Verification of the pokt-tracker-bot specification against `src/app.py`.

The Python program is shallowly embedded: pure functions become Lean
functions over explicit data types, exceptions become `Option`/`Except`,
the Flask webhook handler becomes a state-transition function over an
explicit bot state, and the threaded monitor loop becomes an interleaving
semantics over fine-grained handler steps.

Python `float` amounts are modelled as exact rationals: every raw amount
in scope is an integer, and the sole arithmetic operation performed is a
division by a constant scale factor, so the rational model agrees with the
float semantics on all inputs considered here.
-/

namespace PoktBot

/-! ## Data model: transactions (see `fetch_pokt_transactions` / `detect_large_movements`)

A raw transaction is a dictionary `{hash, stdTx: {msg: {value: {amount,
from_address, to_address}}, time}, time?}`.  Every field may be absent
(`Option`).  The `amount` value is either a value `float` accepts
(modelled by its exact rational value) or one on which `float` raises
`ValueError`/`TypeError` (modelled by `malformed`). -/

/-- The value stored under the `amount` key: either one Python's `float`
conversion accepts (carrying its numeric value) or one it raises on. -/
inductive AmountVal where
  | num (q : ℚ)
  | malformed
deriving DecidableEq

/-- The `value` dictionary inside `stdTx.msg`. -/
structure MsgValue where
  amount : Option AmountVal
  from_address : Option String
  to_address : Option String
deriving DecidableEq

/-- The `msg` dictionary inside `stdTx`. -/
structure Msg where
  value : Option MsgValue
deriving DecidableEq

/-- The `stdTx` dictionary of a transaction. -/
structure StdTx where
  msg : Option Msg
deriving DecidableEq

/-- A raw transaction record as consumed by `detect_large_movements`.
`time` is the *top-level* `time` key, which is what `tx.get("time")`
reads (the dummy data nests its timestamp inside `stdTx` instead). -/
structure Tx where
  hash : Option String
  stdTx : Option StdTx
  time : Option String
deriving DecidableEq

/-- The chain `tx.get("stdTx", {}).get("msg", {}).get("value", {})`: each missing
level defaults to an empty dict, so the result is absent as soon as any
level is absent. -/
def tx_msg_value (tx : Tx) : Option MsgValue :=
  (tx.stdTx.bind (·.msg)).bind (·.value)

/-- The read `... .get("amount", 0)` through the chain above (without the
`0` default applied yet). -/
def tx_amount_field (tx : Tx) : Option AmountVal :=
  (tx_msg_value tx).bind (·.amount)

/-- The read `... .get("from_address")`. -/
def tx_from_address (tx : Tx) : Option String :=
  (tx_msg_value tx).bind (·.from_address)

/-- The read `... .get("to_address")`. -/
def tx_to_address (tx : Tx) : Option String :=
  (tx_msg_value tx).bind (·.to_address)

/-- The conversion `float(tx.get(...).get("amount", 0))`: a missing field takes the
default `0`; a malformed value makes `float` raise (returned as `none`,
which the caller's `except` clause turns into `continue`). -/
def float_of_amount : Option AmountVal → Option ℚ
  | Option.none => some 0
  | some (AmountVal.num q) => some q
  | some AmountVal.malformed => Option.none

/-- A movement alert dictionary produced by `detect_large_movements`
(`{tx_hash, amount, from, to, time}`; the `from`/`to` keys are named
`from_address`/`to_address` here since `from` is reserved in Lean). -/
structure Alert where
  tx_hash : Option String
  amount : ℚ
  from_address : Option String
  to_address : Option String
  time : Option String
deriving DecidableEq

/-- The detector `detect_large_movements(transactions, threshold=100000)`: one pass
over the input; each transaction's amount is converted to display units
by dividing by 1,000,000; a conversion failure is caught and the
transaction skipped; amounts at or above the threshold append an alert. -/
def detect_large_movements (transactions : List Tx) (threshold : ℚ := 100000) :
    List Alert :=
  match transactions with
  | [] => []
  | tx :: rest =>
    match float_of_amount (tx_amount_field tx) with
    | Option.none => detect_large_movements rest threshold
    | some raw =>
      let amount : ℚ := raw / 1000000
      if threshold ≤ amount then
        { tx_hash := tx.hash
          amount := amount
          from_address := tx_from_address tx
          to_address := tx_to_address tx
          time := tx.time } :: detect_large_movements rest threshold
      else
        detect_large_movements rest threshold

/-! ## Address Classifier (`check_exchange_wallet`) -/

/-- The static `known_exchanges` table, as an association list. -/
def known_exchanges : List (String × String) :=
  [("0x1234...", "Binance"), ("0x5678...", "Coinbase")]

/-- The classifier `check_exchange_wallet(address)`, i.e.
`known_exchanges.get(address, "Unknown")`. -/
def check_exchange_wallet (address : String) : String :=
  (known_exchanges.lookup address).getD "Unknown"

/-! ## Derived notions for the detector theorems -/

/-- A transaction is well-formed for the detector when its `amount` field
is present and `float`-convertible. -/
def has_numeric_amount (tx : Tx) : Bool :=
  match tx_amount_field tx with
  | some (AmountVal.num _) => true
  | _ => false

/-- The raw numeric amount of a transaction (`0` when absent, matching
the `.get("amount", 0)` default). -/
def raw_amount (tx : Tx) : ℚ :=
  match tx_amount_field tx with
  | some (AmountVal.num q) => q
  | _ => 0

/-- The alert `detect_large_movements` builds for a transaction it keeps. -/
def alert_of (tx : Tx) : Alert :=
  { tx_hash := tx.hash
    amount := raw_amount tx / 1000000
    from_address := tx_from_address tx
    to_address := tx_to_address tx
    time := tx.time }

/-- The detector is a homomorphism over list append: each transaction is
processed independently, in order. -/
theorem detect_large_movements_append (l1 l2 : List Tx) (th : ℚ) :
    detect_large_movements (l1 ++ l2) th =
      detect_large_movements l1 th ++ detect_large_movements l2 th := by
  induction l1 with
  | nil => rfl
  | cons tx rest ih =>
    simp only [List.cons_append, detect_large_movements]
    cases float_of_amount (tx_amount_field tx) with
    | none => exact ih
    | some raw =>
      by_cases h : th ≤ raw / 1000000
      · simp [h, ih]
      · simp [h, ih]

/-- The `stdTx.msg.value` dictionary of the dummy transaction returned by
`fetch_pokt_transactions`. -/
def dummy_value : MsgValue :=
  { amount := some (AmountVal.num 150000000000)
    from_address := some "0x1111..."
    to_address := some "0x1234..." }

/-- The dummy transaction returned by `fetch_pokt_transactions` (its
timestamp sits inside `stdTx`, not at top level, so the top-level `time`
is absent). -/
def dummy_tx : Tx :=
  { hash := some "abc123"
    stdTx := some { msg := some { value := some dummy_value } }
    time := Option.none }

/-- Claim C4: on well-formed inputs, `detect_large_movements` returns, in
input order, exactly one alert for each transaction whose raw amount
divided by the 1,000,000 scale factor is at least the threshold
(inclusive comparison), with the alert amount equal to that quotient, and
no alert for any transaction below the threshold. -/
theorem detect_large_movements_spec (txs : List Tx) (th : ℚ)
    (hwf : ∀ tx ∈ txs, has_numeric_amount tx = true) :
    detect_large_movements txs th =
      (txs.filter (fun tx => decide (th ≤ raw_amount tx / 1000000))).map alert_of := by
  induction txs with
  | nil => rfl
  | cons tx rest ih =>
    have htx : has_numeric_amount tx = true := hwf tx (List.mem_cons_self tx rest)
    have hrest : ∀ t ∈ rest, has_numeric_amount t = true :=
      fun t ht => hwf t (List.mem_cons_of_mem tx ht)
    have hq : ∃ q, tx_amount_field tx = some (AmountVal.num q) := by
      unfold has_numeric_amount at htx
      cases hcase : tx_amount_field tx with
      | none => rw [hcase] at htx; exact absurd htx (by simp)
      | some v =>
        cases v with
        | num q => exact ⟨q, rfl⟩
        | malformed => rw [hcase] at htx; exact absurd htx (by simp)
    obtain ⟨q, hq⟩ := hq
    have hraw : raw_amount tx = q := by unfold raw_amount; rw [hq]
    by_cases h : th ≤ q / 1000000
    · simp [detect_large_movements, hq, float_of_amount, List.filter_cons, hraw, h,
        ih hrest, alert_of]
    · simp [detect_large_movements, hq, float_of_amount, List.filter_cons, hraw, h,
        ih hrest]

unseal Rat.mul Rat.inv in
/-- Scenario witness for C4: the dummy transaction (raw amount
150,000,000,000) at the default threshold 100,000 yields exactly the
alert with display amount 150,000. -/
theorem detect_large_movements_spec_witness :
    (∀ tx ∈ [dummy_tx], has_numeric_amount tx = true) ∧
    detect_large_movements [dummy_tx] 100000 =
      [{ tx_hash := some "abc123", amount := 150000, from_address := some "0x1111...",
         to_address := some "0x1234...", time := Option.none }] :=
  ⟨by decide, by rw [detect_large_movements_spec [dummy_tx] 100000 (by decide)]; decide⟩

/-- Build a transaction with the given hash whose `stdTx.msg.value`
levels are all present and hold `v`. -/
def mkTx (hash : String) (v : MsgValue) : Tx :=
  { hash := some hash
    stdTx := some { msg := some { value := some v } }
    time := Option.none }

/-- A transaction with a large numeric amount but with both address
fields absent. -/
def tx_no_addresses : Tx :=
  mkTx "h1" ⟨some (AmountVal.num 150000000000), Option.none, Option.none⟩

/-- A transaction whose `amount` field holds a value `float` raises on. -/
def tx_malformed_amount : Tx :=
  mkTx "h2" ⟨some AmountVal.malformed, some "0xaaaa", some "0xbbbb"⟩

/-- A transaction whose `amount` field is absent entirely. -/
def tx_missing_amount : Tx :=
  mkTx "h3" ⟨Option.none, some "0xcccc", some "0xdddd"⟩

unseal Rat.mul Rat.inv in
/-- Counterexample to C2: a transaction missing both `from_address` and
`to_address` is *not* omitted by `detect_large_movements` — when its
amount crosses the threshold it still produces an alert (with absent
address fields). -/
theorem detect_missing_address_counterexample :
    tx_from_address tx_no_addresses = Option.none
    ∧ tx_to_address tx_no_addresses = Option.none
    ∧ detect_large_movements [tx_no_addresses] 100000 =
        [{ tx_hash := some "h1", amount := 150000, from_address := Option.none,
           to_address := Option.none, time := Option.none }] := by
  refine ⟨rfl, rfl, ?_⟩
  decide

/-- Claim C2 (amended): `detect_large_movements` never raises; it omits
every transaction whose `amount` field is malformed (the conversion error
is caught), and every transaction whose `amount` field is absent provided
the threshold is positive (the missing amount defaults to `0`); a
transaction missing only address fields is not omitted. -/
theorem detect_omits_bad_amounts (tx : Tx) (l1 l2 : List Tx) (th : ℚ)
    (h : tx_amount_field tx = some AmountVal.malformed
        ∨ (tx_amount_field tx = Option.none ∧ 0 < th)) :
    detect_large_movements (l1 ++ tx :: l2) th =
      detect_large_movements l1 th ++ detect_large_movements l2 th := by
  have hskip : detect_large_movements (tx :: l2) th = detect_large_movements l2 th := by
    rcases h with h | ⟨h, hth⟩
    · simp [detect_large_movements, h, float_of_amount]
    · have hlt : ¬ th ≤ (0 : ℚ) / 1000000 := by
        rw [zero_div]
        exact not_le.mpr hth
      simp [detect_large_movements, h, float_of_amount, hlt, hth]
  rw [detect_large_movements_append, hskip]

/-- Witness for the amended C2: the malformed-amount transaction is
omitted even when surrounded by the dummy transaction on both sides. -/
theorem detect_omits_bad_amounts_witness :
    detect_large_movements ([dummy_tx] ++ tx_malformed_amount :: [dummy_tx]) 100000 =
      detect_large_movements [dummy_tx] 100000 ++ detect_large_movements [dummy_tx] 100000 :=
  detect_omits_bad_amounts tx_malformed_amount [dummy_tx] [dummy_tx] 100000 (Or.inl rfl)

/-- Claim C10: a transaction with an absent `amount` field is treated as
having raw amount `0`; with a strictly positive threshold it never yields
an alert (it is dropped by the `amount >= threshold` comparison), while
at threshold `0` it *is* alerted (showing no explicit missing-field check
exists). -/
theorem detect_missing_amount_as_zero (tx : Tx) (l1 l2 : List Tx) (th : ℚ)
    (h : tx_amount_field tx = Option.none) (hth : 0 < th) :
    float_of_amount (tx_amount_field tx) = some 0
    ∧ detect_large_movements (l1 ++ tx :: l2) th =
        detect_large_movements l1 th ++ detect_large_movements l2 th
    ∧ detect_large_movements [tx] 0 = [alert_of tx] := by
  refine ⟨by rw [h]; rfl, ?_, ?_⟩
  · have hlt : ¬ th ≤ (0 : ℚ) / 1000000 := by
      rw [zero_div]
      exact not_le.mpr hth
    rw [detect_large_movements_append]
    simp [detect_large_movements, h, float_of_amount, hlt, hth]
  · have hle : (0 : ℚ) ≤ (0 : ℚ) / 1000000 := by rw [zero_div]
    have hraw : raw_amount tx = 0 := by unfold raw_amount; rw [h]
    simp [detect_large_movements, h, float_of_amount, hle, alert_of, hraw]

/-- Witness for C10 at the concrete missing-amount transaction with the
default threshold 100,000. -/
theorem detect_missing_amount_as_zero_witness :
    float_of_amount (tx_amount_field tx_missing_amount) = some 0
    ∧ detect_large_movements ([] ++ tx_missing_amount :: []) 100000 =
        detect_large_movements [] 100000 ++ detect_large_movements [] 100000
    ∧ detect_large_movements [tx_missing_amount] 0 = [alert_of tx_missing_amount] :=
  detect_missing_amount_as_zero tx_missing_amount [] [] 100000 rfl (by norm_num)

/-! ## Claim C6: the Address Classifier -/

/-- Claim C6: `check_exchange_wallet` is a pure total function (it is a
Lean function, so totality and determinism are inherent); every address
outside the static `known_exchanges` table yields the sentinel label
"Unknown", and every returned label is either "Unknown" or the table
entry for the queried address. -/
theorem check_exchange_wallet_total (address : String) :
    (address ∉ known_exchanges.map Prod.fst → check_exchange_wallet address = "Unknown")
    ∧ (check_exchange_wallet address = "Unknown"
        ∨ (address, check_exchange_wallet address) ∈ known_exchanges) := by
  constructor
  · intro h
    have h1 : address ≠ "0x1234..." := by
      intro e
      exact h (by rw [e]; simp [known_exchanges])
    have h2 : address ≠ "0x5678..." := by
      intro e
      exact h (by rw [e]; simp [known_exchanges])
    have e1 : (address == "0x1234...") = false := beq_eq_false_iff_ne.mpr h1
    have e2 : (address == "0x5678...") = false := beq_eq_false_iff_ne.mpr h2
    simp [check_exchange_wallet, known_exchanges, List.lookup, e1, e2]
  · by_cases h1 : address = "0x1234..."
    · right
      rw [h1]
      decide
    · by_cases h2 : address = "0x5678..."
      · right
        rw [h2]
        decide
      · left
        have e1 : (address == "0x1234...") = false := beq_eq_false_iff_ne.mpr h1
        have e2 : (address == "0x5678...") = false := beq_eq_false_iff_ne.mpr h2
        simp [check_exchange_wallet, known_exchanges, List.lookup, e1, e2]

/-- Witness for C6: the unknown address "0x9999" classifies as "Unknown". -/
theorem check_exchange_wallet_total_witness :
    check_exchange_wallet "0x9999" = "Unknown" :=
  (check_exchange_wallet_total "0x9999").1 (by decide)

/-! ## Claim C7: the News Watcher (`fetch_migration_news`) -/

/-- A feed entry, of which only `title` and `link` are consumed. -/
structure Entry where
  title : String
  link : String
deriving DecidableEq

/-- Python's `str.lower()`, modelled as a per-character lowercase map
(the titles and keywords in scope are ASCII). -/
def string_lower (s : String) : String :=
  String.mk (s.data.map Char.toLower)

/-- Python's substring test `sub in s`, on the character sequences. -/
def str_contains (s sub : String) : Bool :=
  decide (List.IsInfix sub.toList s.toList)

/-- The keyword heuristic:
`"shannon" in entry.title.lower() or "upgrade" in entry.title.lower()`. -/
def title_matches (title : String) : Bool :=
  str_contains (string_lower title) "shannon" || str_contains (string_lower title) "upgrade"

/-- The message built from a matching entry:
`f"📰 Shannon 업그레이드 뉴스: {entry.title}\n링크: {entry.link}"`. -/
def news_message (e : Entry) : String :=
  "📰 Shannon 업그레이드 뉴스: " ++ e.title ++ "\n링크: " ++ e.link

/-- The `for entry in feed.entries[:5]` loop body: return on the first
match, fall through to `None`. -/
def find_news : List Entry → Option String
  | [] => Option.none
  | e :: rest => if title_matches e.title then some (news_message e) else find_news rest

/-- The watcher `fetch_migration_news()` with the feed fetch abstracted: `feed` is
`none` when `feedparser.parse` (or anything inside the `try`) raises —
the broad `except` turns that into `None` — and `some entries`
otherwise. -/
def fetch_migration_news (feed : Option (List Entry)) : Option String :=
  match feed with
  | Option.none => Option.none
  | some entries => find_news (entries.take 5)

/-- Auxiliary: `find_news` returns nothing exactly when no inspected title matches. -/
theorem find_news_eq_none_iff (l : List Entry) :
    find_news l = Option.none ↔ ∀ e ∈ l, title_matches e.title = false := by
  induction l with
  | nil => simp [find_news]
  | cons e rest ih =>
    by_cases h : title_matches e.title
    · simp [find_news, h]
    · simp [find_news, h, ih]

/-- Auxiliary: `find_news` returns the first matching entry's message. -/
theorem find_news_first (l1 l2 : List Entry) (e : Entry)
    (h1 : ∀ x ∈ l1, title_matches x.title = false)
    (h2 : title_matches e.title = true) :
    find_news (l1 ++ e :: l2) = some (news_message e) := by
  induction l1 with
  | nil => simp [find_news, h2]
  | cons x rest ih =>
    have hx : title_matches x.title = false := h1 x (List.mem_cons_self x rest)
    have hrest : ∀ y ∈ rest, title_matches y.title = false :=
      fun y hy => h1 y (List.mem_cons_of_mem x hy)
    simp [find_news, hx, ih hrest]

/-- Claim C7: the news check returns nothing on fetch failure (a fetch
failure is never fatal: the result is an ordinary `None`), inspects only
the first 5 entries in feed order, returns nothing exactly when no title
among those matches the case-insensitive keywords, and returns the
message of the *first* matching entry when one occurs within the first 5. -/
theorem fetch_migration_news_spec :
    fetch_migration_news Option.none = Option.none
    ∧ (∀ entries : List Entry,
        fetch_migration_news (some entries) = fetch_migration_news (some (entries.take 5)))
    ∧ (∀ entries : List Entry,
        (fetch_migration_news (some entries) = Option.none ↔
          ∀ e ∈ entries.take 5, title_matches e.title = false))
    ∧ (∀ (l1 l2 : List Entry) (e : Entry), l1.length < 5 →
        (∀ x ∈ l1, title_matches x.title = false) → title_matches e.title = true →
        fetch_migration_news (some (l1 ++ e :: l2)) = some (news_message e)) := by
  refine ⟨rfl, ?_, ?_, ?_⟩
  · intro entries
    simp [fetch_migration_news, List.take_take]
  · intro entries
    simp [fetch_migration_news, find_news_eq_none_iff]
  · intro l1 l2 e hlen h1 h2
    have htake : (l1 ++ e :: l2).take 5 = l1 ++ e :: l2.take (5 - l1.length - 1) := by
      rw [List.take_append_eq_append_take,
        List.take_of_length_le (Nat.le_of_lt hlen)]
      congr 1
      have hpos : 0 < 5 - l1.length := Nat.sub_pos_of_lt hlen
      cases hd : 5 - l1.length with
      | zero => omega
      | succ n =>
        simp [List.take_succ_cons]
    simp only [fetch_migration_news, htake]
    exact find_news_first l1 (l2.take (5 - l1.length - 1)) e h1 h2

/-- Scenario witness for C7: feed entries "Shannon mainnet launch" and
"Unrelated update" — the first entry matches and is returned, ignoring
the second. -/
theorem fetch_migration_news_spec_witness :
    fetch_migration_news
        (some [⟨"Shannon mainnet launch", "L1"⟩, ⟨"Unrelated update", "L2"⟩]) =
      some (news_message ⟨"Shannon mainnet launch", "L1"⟩) :=
  fetch_migration_news_spec.2.2.2 [] [⟨"Unrelated update", "L2"⟩]
    ⟨"Shannon mainnet launch", "L1"⟩ (by decide) (by decide) (by decide)

/-! ## Claim C8: the Notifier (`send_telegram_message`) -/

/-- The JSON dictionary the notifier returns: either the transport's
parsed response or the synthesized `{"ok": False, "description": str(e)}`. -/
structure TgResult where
  ok : Bool
  description : Option String
deriving DecidableEq

/-- An HTTP response, with its parsed JSON body. -/
structure HttpResponse where
  status : Nat
  body : TgResult
deriving DecidableEq

/-- The call `response.raise_for_status()`: raises an `HTTPError` (a
`RequestException`) for status codes 400 and above. -/
def raise_for_status (r : HttpResponse) : Except String HttpResponse :=
  if 400 ≤ r.status then Except.error ("HTTP error " ++ toString r.status)
  else Except.ok r

/-- The notifier `send_telegram_message(chat_id, message)` with the transport
abstracted: `post_result` is the outcome of `requests.post` (`error e`
when it raises a `RequestException` described by `e`).  The `try` block
chains `raise_for_status` and returns `response.json()`; the `except`
clause returns `{"ok": False, "description": str(e)}`. -/
def send_telegram_message (chat_id : Int) (message : String)
    (post_result : Except String HttpResponse) : TgResult :=
  match chat_id, message, post_result.bind raise_for_status with
  | _, _, Except.ok r => r.body
  | _, _, Except.error e => { ok := false, description := some e }

/-- Claim C8: for every destination, message and transport outcome, the
notifier never raises past its boundary — it always returns a result
dictionary; when the transport raises, or the response status signals an
HTTP error, the result is a failure record carrying the error
description; otherwise it is the parsed response body. -/
theorem send_telegram_message_no_raise (chat_id : Int) (message : String)
    (p : Except String HttpResponse) :
    (∀ e, p = Except.error e →
      send_telegram_message chat_id message p = { ok := false, description := some e })
    ∧ (∀ r, p = Except.ok r → 400 ≤ r.status →
      send_telegram_message chat_id message p =
        { ok := false, description := some ("HTTP error " ++ toString r.status) })
    ∧ (∀ r, p = Except.ok r → r.status < 400 →
      send_telegram_message chat_id message p = r.body) := by
  refine ⟨?_, ?_, ?_⟩
  · intro e he
    rw [he]
    rfl
  · intro r hr hs
    rw [hr]
    simp [send_telegram_message, Except.bind, raise_for_status, hs]
  · intro r hr hs
    rw [hr]
    simp [send_telegram_message, Except.bind, raise_for_status, Nat.not_le.mpr hs]

/-- Witness for C8: a transport failure described by "connection reset"
yields the failure record carrying that description. -/
theorem send_telegram_message_no_raise_witness :
    send_telegram_message 42 "hello" (Except.error "connection reset") =
      { ok := false, description := some "connection reset" } :=
  (send_telegram_message_no_raise 42 "hello" (Except.error "connection reset")).1
    "connection reset" rfl

/-! ## The shared monitor flag and the webhook dispatcher

`monitor_stop_event = Event()` and the `/webhook` handler.  The state
records the flag (`true` when the Event is set), the number of
`monitor_pokt` threads spawned and still active, and the transcript of
outbound telegram sends. -/

/-- Shared bot state. -/
structure BotState where
  stop_event_set : Bool
  loops : Nat
  sent : List (Int × String)
deriving DecidableEq

/-- Process start: `threading.Event()` starts in the *unset* state, and no monitor
thread exists at process start. -/
def initial_bot_state : BotState :=
  { stop_event_set := false, loops := 0, sent := [] }

/-- Reply to `/start`. -/
def msg_start : String := "안녕하세요! POKT 추적 봇입니다. /help로 도움말을 확인하세요."

/-- Reply to `/help`. -/
def msg_help : String :=
  "사용 가능한 명령어:\n/start - 봇 시작\n/help - 도움말\n/status - 서버 상태 확인\n/monitor - POKT 모니터링 시작\n/stop - 모니터링 중지"

/-- Reply to `/status`. -/
def msg_status : String := "서버 상태: 정상 작동 중"

/-- Reply to `/monitor` when the handler believes monitoring already runs. -/
def msg_already_running : String := "POKT 모니터링이 이미 실행 중입니다."

/-- Reply to `/monitor` when the handler starts the monitor thread. -/
def msg_monitoring_started : String := "POKT 모니터링을 시작했습니다."

/-- Reply to `/stop`. -/
def msg_monitoring_stopped : String := "POKT 모니터링을 중지했습니다."

/-- The echo reply for unrecognized text. -/
def msg_echo (text : String) : String := "받은 메시지: " ++ text

/-- Record one `send_telegram_message(chat_id, m)` call. -/
def send_to (chat_id : Int) (m : String) (s : BotState) : BotState :=
  { s with sent := s.sent ++ [(chat_id, m)] }

/-- The command dispatch on `update["message"]`, executed atomically
(the sequential semantics; claim C5 uses a fine-grained interleaved
semantics of the `/monitor` branch instead). -/
def handle_text (chat_id : Int) (text : String) (s : BotState) : BotState :=
  if text = "/start" then send_to chat_id msg_start s
  else if text = "/help" then send_to chat_id msg_help s
  else if text = "/status" then send_to chat_id msg_status s
  else if text = "/monitor" then
    if !s.stop_event_set then send_to chat_id msg_already_running s
    else send_to chat_id msg_monitoring_started
      { s with stop_event_set := false, loops := s.loops + 1 }
  else if text = "/stop" then
    send_to chat_id msg_monitoring_stopped { s with stop_event_set := true }
  else send_to chat_id (msg_echo text) s

/-- The parsed webhook payload `update = request.get_json()`: `falsy`
covers both an unparsable body (`None`) and the empty object `{}` — both
are falsy, so `if not update` rejects them; `noMessage` is a non-empty
object without a "message" key; `badMessage` is an object whose
"message" value lacks the chat/id structure (such as `{"message": {}}`
or `{"message": "hi"}`), on which the subscript
`update["message"]["chat"]["id"]` raises `KeyError`/`TypeError`;
`withMessage` carries that chat id and the optional `text` when the
subscripts succeed. -/
inductive Update where
  | falsy
  | noMessage
  | badMessage
  | withMessage (chat_id : Int) (text : Option String)
deriving DecidableEq

/-- The `/webhook` view body; `Except.error` models an exception the
handler does not catch.  On `badMessage` the very first subscript,
`update["message"]["chat"]["id"]`, raises — before any send, so the
state is untouched on that path. -/
def webhook_body (u : Update) (s : BotState) :
    Except String ((String × Nat) × BotState) :=
  match u with
  | Update.falsy => Except.ok (("Invalid request", 400), s)
  | Update.noMessage => Except.ok (("ok", 200), s)
  | Update.badMessage => Except.error "KeyError"
  | Update.withMessage chat_id text =>
      Except.ok (("ok", 200), handle_text chat_id (text.getD "") s)

/-- The `/webhook` endpoint as the client observes it: Flask converts an
exception that escapes the view into a 500 Internal Server Error
response. -/
def webhook (u : Update) (s : BotState) : (String × Nat) × BotState :=
  match webhook_body u s with
  | Except.ok r => r
  | Except.error _ => (("Internal Server Error", 500), s)

/-- Client errors are the 4xx statuses. -/
def is_client_error (status : Nat) : Bool := 400 ≤ status && status < 500

/-- Claim C1 (code bug): `Event()` starts unset, which the `/monitor`
handler reads as "already running" — so the first `/monitor` after
process start replies that monitoring is already running and spawns no
polling loop, instead of transitioning Stopped → Running.  Monitoring
can only ever be started after a `/stop` first sets the event. -/
theorem first_monitor_command_rejected :
    initial_bot_state.stop_event_set = false
    ∧ initial_bot_state.loops = 0
    ∧ webhook (Update.withMessage 42 (some "/monitor")) initial_bot_state =
        (("ok", 200),
          { stop_event_set := false, loops := 0, sent := [(42, msg_already_running)] }) := by
  refine ⟨rfl, rfl, ?_⟩
  decide

/-- Counterexample to C3: the truthy payload `{"x": 1}` lacks the
message structure, yet the endpoint replies ok/200 — not a client
error (though indeed no notification is sent). -/
theorem webhook_no_message_counterexample :
    is_client_error (webhook Update.noMessage initial_bot_state).1.2 = false
    ∧ (webhook Update.noMessage initial_bot_state).1 = ("ok", 200)
    ∧ (webhook Update.noMessage initial_bot_state).2.sent = [] := by
  decide

/-- Claim C3 (amended): the endpoint returns the client error 400, with
no notification sent and no state change, exactly for *falsy* payloads
(an unparsable body or the empty object `{}` — covering the spec's `{}`
scenario).  Other payloads lacking the message structure are not
rejected with a client error: a truthy payload without the "message" key
yields ok/200 with no command dispatched and nothing sent, and a payload
whose "message" value lacks the chat/id structure raises
`KeyError`/`TypeError` out of the view, which surfaces as a 500 server
error — not a client error — again with nothing sent; payloads with a
message carrying a chat id yield ok/200 after dispatching the command. -/
theorem webhook_responses (s : BotState) (c : Int) (t : Option String) :
    webhook Update.falsy s = (("Invalid request", 400), s)
    ∧ is_client_error 400 = true
    ∧ webhook Update.noMessage s = (("ok", 200), s)
    ∧ webhook_body Update.badMessage s = Except.error "KeyError"
    ∧ webhook Update.badMessage s = (("Internal Server Error", 500), s)
    ∧ is_client_error 500 = false
    ∧ webhook (Update.withMessage c t) s = (("ok", 200), handle_text c (t.getD "") s) :=
  ⟨rfl, rfl, rfl, rfl, rfl, rfl, rfl⟩

/-! ## Claim C5: concurrent `/monitor` handlers

Flask may serve two webhook requests on concurrent threads, so the
`/monitor` branch is modelled at the granularity of its accesses to the
shared `monitor_stop_event`: the `is_set()` read, `clear()`, the
`Thread(target=monitor_pokt).start()` call, and the reply send.  An
explicit schedule interleaves the atomic steps of two handlers. -/

/-- One atomic step of the `/monitor` command handler. -/
inductive HStep where
  | check
  | clearFlag
  | spawn
  | sendAlready
  | sendStarted
deriving DecidableEq

/-- A handler thread: the requester's chat id and its remaining steps. -/
structure Handler where
  chat_id : Int
  prog : List HStep
deriving DecidableEq

/-- A `/monitor` handler about to execute its flag check. -/
def monitor_handler (chat_id : Int) : Handler := ⟨chat_id, [HStep.check]⟩

/-- Execute one atomic step of a handler (a finished handler idles).
The `check` step reads the shared flag and selects the continuation,
exactly as `if not monitor_stop_event.is_set(): ... else: ...`. -/
def step_handler (s : BotState) (h : Handler) : BotState × Handler :=
  match h.prog with
  | [] => (s, h)
  | HStep.check :: rest =>
      if !s.stop_event_set then (s, ⟨h.chat_id, HStep.sendAlready :: rest⟩)
      else (s, ⟨h.chat_id, HStep.clearFlag :: HStep.spawn :: HStep.sendStarted :: rest⟩)
  | HStep.clearFlag :: rest => ({ s with stop_event_set := false }, ⟨h.chat_id, rest⟩)
  | HStep.spawn :: rest => ({ s with loops := s.loops + 1 }, ⟨h.chat_id, rest⟩)
  | HStep.sendAlready :: rest =>
      (send_to h.chat_id msg_already_running s, ⟨h.chat_id, rest⟩)
  | HStep.sendStarted :: rest =>
      (send_to h.chat_id msg_monitoring_started s, ⟨h.chat_id, rest⟩)

/-- Run two concurrent handlers under an explicit schedule: `true`
gives the next atomic step to the first handler, `false` to the second. -/
def run_two : List Bool → BotState → Handler → Handler → BotState × Handler × Handler
  | [], s, a, b => (s, a, b)
  | c :: rest, s, a, b =>
      if c then
        let p := step_handler s a
        run_two rest p.1 p.2 b
      else
        let p := step_handler s b
        run_two rest p.1 a p.2

/-- A Stopped state reached in operation: the event is set and no loop
is active. -/
def stopped_state : BotState := { stop_event_set := true, loops := 0, sent := [] }

/-- Counterexample to C5: the flag check and the thread spawn are not
atomic, so two near-simultaneous `/monitor` commands can both pass the
guard.  Under the schedule that lets both handlers perform their checks
first, both spawn: the final state carries *two* active polling loops
and two "monitoring started" replies, with both handlers finished. -/
theorem double_start_race_counterexample :
    (run_two [true, false, true, true, true, false, false, false]
        stopped_state (monitor_handler 1) (monitor_handler 2)).1.loops = 2
    ∧ (run_two [true, false, true, true, true, false, false, false]
        stopped_state (monitor_handler 1) (monitor_handler 2)).1.sent =
        [(1, msg_monitoring_started), (2, msg_monitoring_started)]
    ∧ (run_two [true, false, true, true, true, false, false, false]
        stopped_state (monitor_handler 1) (monitor_handler 2)).2.1.prog = []
    ∧ (run_two [true, false, true, true, true, false, false, false]
        stopped_state (monitor_handler 1) (monitor_handler 2)).2.2.prog = [] := by
  decide

/-- The programs a `/monitor` handler can be left with after observing
an unset (Running-position) flag. -/
def benign_prog (p : List HStep) : Prop :=
  p = [HStep.check] ∨ p = [HStep.sendAlready] ∨ p = []

/-- Stepping a handler whose remaining program is benign, in a state
whose flag is unset, spawns nothing, leaves the flag unset, and sends at
most an "already running" reply. -/
theorem step_handler_benign (s : BotState) (h : Handler)
    (hflag : s.stop_event_set = false) (hp : benign_prog h.prog) :
    (step_handler s h).1.stop_event_set = false
    ∧ (step_handler s h).1.loops = s.loops
    ∧ benign_prog (step_handler s h).2.prog
    ∧ ∀ m ∈ (step_handler s h).1.sent, m ∈ s.sent ∨ m.2 = msg_already_running := by
  rcases h with ⟨c, p⟩
  rcases hp with hp | hp | hp <;> subst hp
  · have hs : step_handler s ⟨c, [HStep.check]⟩ = (s, ⟨c, [HStep.sendAlready]⟩) := by
      simp [step_handler, hflag]
    rw [hs]
    exact ⟨hflag, rfl, Or.inr (Or.inl rfl), fun m hm => Or.inl hm⟩
  · have hs : step_handler s ⟨c, [HStep.sendAlready]⟩ =
        (send_to c msg_already_running s, ⟨c, []⟩) := rfl
    rw [hs]
    refine ⟨hflag, rfl, Or.inr (Or.inr rfl), ?_⟩
    intro m hm
    simp only [send_to, List.mem_append, List.mem_singleton] at hm
    rcases hm with hm | hm
    · exact Or.inl hm
    · right
      rw [hm]
  · have hs : step_handler s ⟨c, []⟩ = (s, ⟨c, []⟩) := rfl
    rw [hs]
    exact ⟨hflag, rfl, Or.inr (Or.inr rfl), fun m hm => Or.inl hm⟩

/-- Running two benign handlers under any schedule, from a state with
the flag unset, spawns nothing, keeps the flag unset, and adds only
"already running" replies. -/
theorem run_two_benign (sched : List Bool) :
    ∀ (s : BotState) (a b : Handler),
    s.stop_event_set = false → benign_prog a.prog → benign_prog b.prog →
    (run_two sched s a b).1.stop_event_set = false
    ∧ (run_two sched s a b).1.loops = s.loops
    ∧ ∀ m ∈ (run_two sched s a b).1.sent, m ∈ s.sent ∨ m.2 = msg_already_running := by
  induction sched with
  | nil =>
    intro s a b hflag _ _
    exact ⟨hflag, rfl, fun m hm => Or.inl hm⟩
  | cons c rest ih =>
    intro s a b hflag ha hb
    cases c with
    | true =>
      have hr : run_two (true :: rest) s a b
          = run_two rest (step_handler s a).1 (step_handler s a).2 b := rfl
      rw [hr]
      obtain ⟨h1, h2, h3, h4⟩ := step_handler_benign s a hflag ha
      obtain ⟨g1, g2, g3⟩ := ih (step_handler s a).1 (step_handler s a).2 b h1 h3 hb
      refine ⟨g1, by rw [g2, h2], ?_⟩
      intro m hm
      rcases g3 m hm with hmem | hmsg
      · exact h4 m hmem
      · exact Or.inr hmsg
    | false =>
      have hr : run_two (false :: rest) s a b
          = run_two rest (step_handler s b).1 a (step_handler s b).2 := rfl
      rw [hr]
      obtain ⟨h1, h2, h3, h4⟩ := step_handler_benign s b hflag hb
      obtain ⟨g1, g2, g3⟩ := ih (step_handler s b).1 a (step_handler s b).2 h1 ha h3
      refine ⟨g1, by rw [g2, h2], ?_⟩
      intro m hm
      rcases g3 m hm with hmem | hmsg
      · exact h4 m hmem
      · exact Or.inr hmsg

/-- Claim C5 (amended): a `/monitor` command whose flag check observes
the Running position (event unset) is a no-op — under *any* interleaving
of two such handlers no additional loop is spawned, the flag stays in
the Running position, and every reply produced is the "already running"
notification.  However (see the counterexample) two near-simultaneous
`/monitor` commands arriving while Stopped can both pass the guard and
spawn two concurrent loops: the guard is not atomic with the spawn. -/
theorem start_while_running_is_noop (sched : List Bool) (s : BotState)
    (c1 c2 : Int) (hflag : s.stop_event_set = false) :
    (run_two sched s (monitor_handler c1) (monitor_handler c2)).1.stop_event_set = false
    ∧ (run_two sched s (monitor_handler c1) (monitor_handler c2)).1.loops = s.loops
    ∧ ∀ m ∈ (run_two sched s (monitor_handler c1) (monitor_handler c2)).1.sent,
        m ∈ s.sent ∨ m.2 = msg_already_running :=
  run_two_benign sched s (monitor_handler c1) (monitor_handler c2) hflag
    (Or.inl rfl) (Or.inl rfl)

/-- Witness for the amended C5: from a genuinely Running state (one
active loop, flag unset), interleaving two `/monitor` handlers to
completion leaves exactly one loop. -/
theorem start_while_running_is_noop_witness :
    (run_two [true, false, true, false]
        ⟨false, 1, []⟩ (monitor_handler 7) (monitor_handler 8)).1.stop_event_set = false
    ∧ (run_two [true, false, true, false]
        ⟨false, 1, []⟩ (monitor_handler 7) (monitor_handler 8)).1.loops =
        (⟨false, 1, []⟩ : BotState).loops
    ∧ ∀ m ∈ (run_two [true, false, true, false]
        ⟨false, 1, []⟩ (monitor_handler 7) (monitor_handler 8)).1.sent,
        m ∈ (⟨false, 1, []⟩ : BotState).sent ∨ m.2 = msg_already_running :=
  start_while_running_is_noop [true, false, true, false] ⟨false, 1, []⟩ 7 8 rfl

/-! ## Claim C9: the monitor loop's stop latency (`monitor_pokt`)

`monitor_pokt` is `while not monitor_stop_event.is_set(): cycle;
time.sleep(300)`.  Discrete-time model: the cycle body is taken as
instantaneous relative to the 300-second sleep, so the check opening
iteration `k` happens `300·k` seconds after the loop starts.  The fuel
argument bounds how many iterations are examined; the result is the
pair (termination iteration, cycles performed), or `none` if fuel ran
out before the flag was observed. -/

/-- The loop: at iteration `k`, check the flag; if set, terminate;
otherwise run one fetch→detect→notify cycle and sleep one interval. -/
def monitor_run (flag : Nat → Bool) : Nat → Nat → Nat → Option (Nat × Nat)
  | 0, _, _ => Option.none
  | fuel + 1, k, cycles =>
      if flag k then some (k, cycles)
      else monitor_run flag fuel (k + 1) (cycles + 1)

/-- The loop terminates at the first iteration whose check observes the
flag, having performed exactly one cycle per earlier iteration. -/
theorem monitor_run_terminates (flag : Nat → Bool) (k : Nat)
    (hk : flag k = true) (hmin : ∀ j, j < k → flag j = false) :
    ∀ (fuel i cycles : Nat), i ≤ k → k - i < fuel →
      monitor_run flag fuel i cycles = some (k, cycles + (k - i)) := by
  intro fuel
  induction fuel with
  | zero =>
    intro i cycles hik hfuel
    omega
  | succ n ih =>
    intro i cycles hik hfuel
    by_cases hi : i = k
    · subst hi
      simp [monitor_run, hk]
    · have hlt : i < k := lt_of_le_of_ne hik hi
      have hflag : flag i = false := hmin i hlt
      simp only [monitor_run, hflag, if_false]
      rw [ih (i + 1) (cycles + 1) (by omega) (by omega)]
      have harith : cycles + 1 + (k - (i + 1)) = cycles + (k - i) := by omega
      rw [harith]
      simp

/-- Claim C9: if the stop flag is raised at absolute time `tset`, so the
check at iteration `j` (at time `300·j`) observes it exactly when
`tset ≤ 300·j`, then the loop performs a cycle only at iterations whose
check strictly precedes `tset`, and terminates at iteration
`⌈tset/300⌉ = (tset+299)/300`, whose time `300·⌈tset/300⌉` is at most
`tset + 300`: the termination latency is bounded by one 300-second
interval, and no further cycle runs once the flag is observed set. -/
theorem monitor_stop_within_one_interval (tset fuel : Nat)
    (hfuel : (tset + 299) / 300 < fuel) :
    monitor_run (fun j => decide (tset ≤ 300 * j)) fuel 0 0 =
      some ((tset + 299) / 300, (tset + 299) / 300)
    ∧ 300 * ((tset + 299) / 300) ≤ tset + 300
    ∧ ∀ j, j < (tset + 299) / 300 → 300 * j < tset := by
  have hk : (fun j => decide (tset ≤ 300 * j)) ((tset + 299) / 300) = true := by
    simp only [decide_eq_true_eq]
    omega
  have hmin : ∀ j, j < (tset + 299) / 300 → (fun j => decide (tset ≤ 300 * j)) j = false := by
    intro j hj
    simp only [decide_eq_false_iff_not]
    omega
  refine ⟨?_, by omega, fun j hj => by omega⟩
  have := monitor_run_terminates (fun j => decide (tset ≤ 300 * j))
    ((tset + 299) / 300) hk hmin fuel 0 0 (by omega) (by omega)
  simpa using this

/-- Witness for C9: the flag raised at `tset = 450` (mid-sleep of the
second interval) stops the loop at iteration 2 — time 600, latency 150 —
after exactly 2 cycles. -/
theorem monitor_stop_within_one_interval_witness :
    monitor_run (fun j => decide (450 ≤ 300 * j)) 5 0 0 =
      some ((450 + 299) / 300, (450 + 299) / 300)
    ∧ 300 * ((450 + 299) / 300) ≤ 450 + 300
    ∧ ∀ j, j < (450 + 299) / 300 → 300 * j < 450 :=
  monitor_stop_within_one_interval 450 5 (by norm_num)

end PoktBot
